import Mathlib

/-!
Shallow embedding of `src/starter-code-simple/app.py`: a Flask user
registration and login service backed by sqlite3 and bcrypt.

Modelling conventions:
* The app only ever reads scalar JSON fields and emits flat JSON objects
  (plus the one `{"users": [...]}` payload), so JSON scalars are the
  inductive `JVal`, a parsed request body is an association list from
  string keys to `JVal` (a Python dict), and response bodies are `JBody`.
* Python `str.strip()` is `pyStripStr` (drop whitespace at both ends of
  the character list); calling `.strip()` or `.encode("utf-8")` on a
  non-string raises `AttributeError`, modelled with `Except PyExn`.
* bcrypt is modelled behaviourally: `hashpw` records the password
  together with the externally supplied random salt, and `checkpw`
  succeeds exactly on the original password (hash collisions ignored).
* The sqlite table is `DB`: a list of rows plus the AUTOINCREMENT
  counter. The UNIQUE constraint on `username` makes `DB.insert` return
  `none` where the source raises `sqlite3.IntegrityError`.
* Storage-connection lifecycle is tracked as a `List ConnEvent`: the
  Python block `with get_db_connection() as conn:` emits `openConn` on
  entry and `txEnd` on exit. Per the sqlite3 documentation, a connection
  used as a context manager only ends the pending transaction (commit or
  rollback) on exit; it does not close the connection, so the handlers
  never emit `closeConn`.
* Flask turns an uncaught exception into a plain 500 response; the
  wrapper `create_user_route` models that.
-/

namespace App

/-- Python `str.strip()` on the underlying character list: drop leading
and trailing whitespace. -/
def stripList (l : List Char) : List Char :=
  ((l.dropWhile Char.isWhitespace).reverse.dropWhile Char.isWhitespace).reverse

/-- Python `str.strip()` (ASCII whitespace, which is all the app relies on). -/
def pyStripStr (s : String) : String :=
  ⟨stripList s.data⟩

/-- JSON scalar values as the app consumes them from a parsed body.
`data.get("username")` may yield a string, a number, or be absent. -/
inductive JVal where
  | str (s : String)
  | num (n : Int)
deriving Repr, DecidableEq

/-- Python truthiness of a JSON scalar: `""` and `0` are falsy. -/
def JVal.falsy : JVal → Bool
  | .str s => s == ""
  | .num n => n == 0

def JVal.isStr : JVal → Bool
  | .str _ => true
  | .num _ => false

def JVal.asStr : JVal → String
  | .str s => s
  | .num _ => ""

/-- Python `dict.get(k, d)` on a parsed JSON body. -/
def jget (kvs : List (String × JVal)) (k : String) (d : JVal) : JVal :=
  match kvs.find? (fun kv => kv.1 == k) with
  | some kv => kv.2
  | none => d

/-- The only uncaught Python exception the modelled paths can raise:
`AttributeError` from calling `.strip()` or `.encode()` on a non-string. -/
inductive PyExn where
  | attributeError
deriving Repr, DecidableEq

/-- Python `x.strip()` where `x` came out of the JSON body: strings are
stripped, anything else raises `AttributeError`. -/
def pyStrip : JVal → Except PyExn String
  | .str s => .ok (pyStripStr s)
  | _ => .error .attributeError

/-- Python `x.encode("utf-8")` (as fed to `bcrypt.checkpw`): succeeds on
strings, raises `AttributeError` otherwise. -/
def pyEncode : JVal → Except PyExn String
  | .str s => .ok s
  | _ => .error .attributeError

/-- `validate_username_password` from app.py lines 53-59: returns the
first violated rule's message, or `none` when both rules pass. The
username rule is checked before the password rule, and each rule is the
Python disjunction `not x or not isinstance(x, str) or len(...) < bound`. -/
def validate_username_password (username password : JVal) : Option String :=
  if username.falsy || !username.isStr ||
      decide ((pyStripStr username.asStr).length < 3) then
    some "Username must be at least 3 characters."
  else if password.falsy || !password.isStr ||
      decide (password.asStr.length < 8) then
    some "Password must be at least 8 characters."
  else
    none

/-- Behavioural model of a bcrypt hash: the salt passed to `hashpw` plus
the hashed password. The field `pw` is never disclosed by the handlers. -/
structure BcryptHash where
  salt : Nat
  pw : String
deriving Repr, DecidableEq

/-- `bcrypt.hashpw(password.encode("utf-8"), bcrypt.gensalt())`; the
random salt is supplied as an explicit parameter. -/
def hashpw (password : String) (salt : Nat) : BcryptHash :=
  ⟨salt, password⟩

/-- `bcrypt.checkpw(candidate, stored)`: true exactly when the candidate
is the password the stored hash was derived from. -/
def checkpw (password : String) (h : BcryptHash) : Bool :=
  password == h.pw

/-- One row of the `users` table (`id`, `username`, `password`). -/
structure UserRow where
  id : Nat
  username : String
  password : BcryptHash
deriving Repr, DecidableEq

/-- The `users` table plus the AUTOINCREMENT counter for `id`. -/
structure DB where
  rows : List UserRow
  nextId : Nat
deriving Repr, DecidableEq

/-- `INSERT INTO users (username, password) VALUES (?, ?)` under the
UNIQUE constraint on `username`: `none` models `sqlite3.IntegrityError`. -/
def DB.insert (db : DB) (username : String) (h : BcryptHash) : Option DB :=
  if db.rows.any (fun r => r.username == username) then
    none
  else
    some ⟨db.rows ++ [⟨db.nextId, username, h⟩], db.nextId + 1⟩

/-- `SELECT id, username, password FROM users WHERE username = ?` with
`fetchone()`: the first matching row, if any. -/
def DB.findByUsername (db : DB) (username : String) : Option UserRow :=
  db.rows.find? (fun r => r.username == username)

/-- Storage-connection lifecycle events. A `with get_db_connection()`
block emits `openConn` on entry and `txEnd` (commit or rollback, per the
sqlite3 connection context manager) on exit; nothing in app.py ever calls
`conn.close()`, which would be `closeConn`. -/
inductive ConnEvent where
  | openConn
  | txEnd
  | closeConn
deriving Repr, DecidableEq

/-- A response body: a flat JSON object, the `{"users": [...]}` payload,
or the non-JSON HTML page Flask serves for an uncaught exception. -/
inductive JBody where
  | obj (kvs : List (String × JVal))
  | usersObj (records : List (List (String × JVal)))
  | html (s : String)
deriving Repr, DecidableEq

structure Response where
  status : Nat
  body : JBody
deriving Repr, DecidableEq

/-- An inbound request: whether `request.is_json` holds, and the parsed
JSON object body (meaningful only when `is_json` is true). -/
structure Request where
  is_json : Bool
  body : List (String × JVal)
deriving Repr, DecidableEq

/-- Result of a handler run: the response, the table state afterwards,
and the connection events emitted. -/
structure HResult where
  resp : Response
  db : DB
  events : List ConnEvent
deriving Repr, DecidableEq

/-- `os.path.basename`: the part of the path after the last slash. -/
def basename (p : String) : String :=
  ⟨(p.data.reverse.takeWhile (fun c => c != '/')).reverse⟩

/-- `GET /health` (app.py lines 62-65): constant response, no storage
access, hence the empty event list. It does not read the table at all. -/
def health_check (databasePath : String) : Response × List ConnEvent :=
  (⟨200, .obj [("status", .str "healthy"), ("database", .str (basename databasePath))]⟩, [])

/-- `GET /users` (app.py lines 68-74): `SELECT id, username FROM users`,
one `{id, username}` record per row. -/
def get_users (db : DB) : Response × List ConnEvent :=
  (⟨200, .usersObj (db.rows.map
      (fun r => [("id", JVal.num r.id), ("username", JVal.str r.username)]))⟩,
   [.openConn, .txEnd])

/-- `POST /users` (app.py lines 77-110). Mirrors the source order:
`is_json` guard, `data.get("username", "").strip()` (which raises on a
non-string username), `data.get("password", "")`, validation, bcrypt
hashing, then the INSERT inside a `with` block, mapping
`IntegrityError` to 409. The generic `except Exception` 500 branch is
unreachable in this storage model, which only fails with
`IntegrityError`. -/
def create_user (req : Request) (db : DB) (salt : Nat) : Except PyExn HResult :=
  if !req.is_json then
    .ok ⟨⟨400, .obj [("error", .str "Request must be JSON")]⟩, db, []⟩
  else
    match pyStrip (jget req.body "username" (.str "")) with
    | .error e => .error e
    | .ok username =>
      match validate_username_password (.str username) (jget req.body "password" (.str "")) with
      | some err => .ok ⟨⟨400, .obj [("error", .str err)]⟩, db, []⟩
      | none =>
        match db.insert username (hashpw (jget req.body "password" (.str "")).asStr salt) with
        | none =>
          .ok ⟨⟨409, .obj [("error", .str "Username already exists")]⟩, db,
            [.openConn, .txEnd]⟩
        | some db2 =>
          .ok ⟨⟨201, .obj [("message", .str "User created"), ("username", .str username)]⟩,
            db2, [.openConn, .txEnd]⟩

/-- `POST /login` (app.py lines 113-146). Mirrors the source order:
`is_json` guard, strip username, presence check (`not username or not
password` — Python truthiness), SELECT inside a `with` block, then the
bcrypt check; both the unknown-user and wrong-password branches return
401 with `{"message": "Invalid credentials"}`. -/
def login (req : Request) (db : DB) : Except PyExn HResult :=
  if !req.is_json then
    .ok ⟨⟨400, .obj [("error", .str "Request must be JSON")]⟩, db, []⟩
  else
    match pyStrip (jget req.body "username" (.str "")) with
    | .error e => .error e
    | .ok username =>
      if username == "" || (jget req.body "password" (.str "")).falsy then
        .ok ⟨⟨400, .obj [("error", .str "Missing username or password")]⟩, db, []⟩
      else
        match db.findByUsername username with
        | none =>
          .ok ⟨⟨401, .obj [("message", .str "Invalid credentials")]⟩, db,
            [.openConn, .txEnd]⟩
        | some row =>
          match pyEncode (jget req.body "password" (.str "")) with
          | .error e => .error e
          | .ok pw =>
            if checkpw pw row.password then
              .ok ⟨⟨200, .obj [("message", .str "Login successful"),
                  ("user_id", .num row.id)]⟩, db, [.openConn, .txEnd]⟩
            else
              .ok ⟨⟨401, .obj [("message", .str "Invalid credentials")]⟩, db,
                [.openConn, .txEnd]⟩

/-- The `POST /users` route as the wire sees it: Flask converts an
uncaught exception into a plain 500 "Internal Server Error" page. -/
def create_user_route (req : Request) (db : DB) (salt : Nat) : Response × DB :=
  match create_user req db salt with
  | .ok r => (r.resp, r.db)
  | .error _ => (⟨500, .html "Internal Server Error"⟩, db)

/-- A well-formed JSON request `{"username": u, "password": p}` with both
fields strings. -/
def mkReq (u p : String) : Request :=
  ⟨true, [("username", .str u), ("password", .str p)]⟩

/-- Wire-level lookup of a user id in the `GET /users` response: the `id`
field of the first record whose `username` field is `u`. -/
def usersLookupId (resp : Response) (u : String) : Option Int :=
  match resp.body with
  | .usersObj records =>
    match records.find? (fun rec => jget rec "username" (.str "") == .str u) with
    | some rec =>
      match jget rec "id" (.str "") with
      | .num n => some n
      | _ => none
    | none => none
  | _ => none

/-! ### Helper lemmas on `stripList` and `pyStripStr` -/

theorem head?_dropWhile_false {α : Type} (p : α → Bool) (l : List α) (a : α)
    (h : (l.dropWhile p).head? = some a) : p a = false := by
  have hne : l.dropWhile p ≠ [] := by
    intro hnil
    rw [hnil] at h
    simp at h
  have hhead := List.head_dropWhile_not p l hne
  rw [List.head?_eq_head hne, Option.some.injEq] at h
  rw [h] at hhead
  exact hhead

theorem dropWhile_of_head?_false {α : Type} (p : α → Bool) (l : List α)
    (h : ∀ a, l.head? = some a → p a = false) : l.dropWhile p = l := by
  cases l with
  | nil => rfl
  | cons x xs =>
    rw [List.dropWhile_cons]
    simp [h x rfl]

theorem dropWhile_dropWhile {α : Type} (p : α → Bool) (l : List α) :
    (l.dropWhile p).dropWhile p = l.dropWhile p :=
  dropWhile_of_head?_false p _ (fun a h => head?_dropWhile_false p l a h)

theorem getLast?_dropWhile {α : Type} (p : α → Bool) (l : List α)
    (h : l.dropWhile p ≠ []) : (l.dropWhile p).getLast? = l.getLast? := by
  obtain ⟨t, ht⟩ := List.dropWhile_suffix (l := l) p
  conv_rhs => rw [← ht]
  rw [List.getLast?_append]
  cases hd : (l.dropWhile p).getLast? with
  | none => exact absurd (List.getLast?_eq_none_iff.mp hd) h
  | some a => simp [hd]

theorem stripList_head?_false (l : List Char) (a : Char)
    (h : (stripList l).head? = some a) : a.isWhitespace = false := by
  unfold stripList at h
  rw [List.head?_reverse] at h
  have hne : (l.dropWhile Char.isWhitespace).reverse.dropWhile Char.isWhitespace ≠ [] := by
    intro h0
    rw [h0] at h
    simp at h
  rw [getLast?_dropWhile _ _ hne, List.getLast?_reverse] at h
  exact head?_dropWhile_false _ _ _ h

theorem dropWhile_stripList (l : List Char) :
    (stripList l).dropWhile Char.isWhitespace = stripList l :=
  dropWhile_of_head?_false _ _ (fun a h => stripList_head?_false l a h)

theorem stripList_idem (l : List Char) : stripList (stripList l) = stripList l := by
  show ((stripList l |>.dropWhile Char.isWhitespace).reverse.dropWhile
      Char.isWhitespace).reverse = stripList l
  rw [dropWhile_stripList]
  rw [show (stripList l).reverse =
      (l.dropWhile Char.isWhitespace).reverse.dropWhile Char.isWhitespace by
    unfold stripList
    exact List.reverse_reverse _]
  rw [dropWhile_dropWhile]
  rfl

theorem pyStripStr_idem (s : String) : pyStripStr (pyStripStr s) = pyStripStr s := by
  simp only [pyStripStr, stripList_idem]

/-! ### Reduction helpers for request-body field access -/

theorem jget_username (u : String) (pv : JVal) :
    jget [("username", JVal.str u), ("password", pv)] "username" (.str "") = .str u := rfl

theorem jget_password (u : String) (pv : JVal) :
    jget [("username", JVal.str u), ("password", pv)] "password" (.str "") = pv := rfl

/-- The example store used by concrete witnesses: the single user
alice123 with the (salt 0) hash of password123, next id 2. -/
def exDb : DB := ⟨[⟨1, "alice123", ⟨0, "password123"⟩⟩], 2⟩

/-! ### Claim theorems -/

/-- C10: GET /health always returns 200 with status "healthy" and the
database filename, for every configured path and independently of any
store state: it performs no storage access (its event list is empty), so
its result does not depend on whether the database exists. -/
theorem health_check_constant (databasePath : String) :
    health_check databasePath =
      (⟨200, .obj [("status", .str "healthy"),
        ("database", .str (basename databasePath))]⟩, []) := rfl

/-- C9: a well-formed JSON register request whose username field is a
number makes the handler raise AttributeError from `.strip()` before
validation runs, so the wire sees the generic Flask 500 page rather than
the 400 validation error; the non-string branch inside
`validate_username_password` itself would have produced the username
message, but it is unreachable from the route. -/
theorem nonstring_username_gives_500 (db : DB) (salt : Nat) :
    create_user ⟨true, [("username", JVal.num 5), ("password", JVal.str "x")]⟩ db salt =
      .error .attributeError ∧
    create_user_route ⟨true, [("username", JVal.num 5), ("password", JVal.str "x")]⟩ db salt =
      (⟨500, .html "Internal Server Error"⟩, db) ∧
    validate_username_password (.num 5) (.str "x") =
      some "Username must be at least 3 characters." :=
  ⟨rfl, rfl, rfl⟩

/-- C3: a register request whose username trims to fewer than 3
characters gets the 400 username-length validation error, whatever the
password field holds (the username rule is checked first); the table is
unchanged and no storage connection is opened. -/
theorem register_short_username (db : DB) (salt : Nat) (u : String) (pv : JVal)
    (h : (pyStripStr u).length < 3) :
    create_user ⟨true, [("username", JVal.str u), ("password", pv)]⟩ db salt =
      .ok ⟨⟨400, .obj [("error", .str "Username must be at least 3 characters.")]⟩,
        db, []⟩ := by
  have hlen : (pyStripStr (pyStripStr u)).length < 3 := by
    rw [pyStripStr_idem]
    exact h
  simp [create_user, jget_username, jget_password, pyStrip,
    validate_username_password, JVal.isStr, JVal.asStr, hlen]

/-- Witness for C3: registering username "ab" (2 characters) with an
invalid password returns the username error and leaves the store as is. -/
theorem register_short_username_witness :
    (pyStripStr "ab").length < 3 ∧
    create_user ⟨true, [("username", JVal.str "ab"), ("password", JVal.str "x")]⟩ exDb 0 =
      .ok ⟨⟨400, .obj [("error", .str "Username must be at least 3 characters.")]⟩,
        exDb, []⟩ :=
  ⟨by decide, register_short_username exDb 0 "ab" (JVal.str "x") (by decide)⟩

/-- C4: a register request with a valid username and a password shorter
than 8 characters (measured on the raw string) gets the 400
password-length validation error; the table is unchanged and no storage
connection is opened. -/
theorem register_short_password (db : DB) (salt : Nat) (u p : String)
    (h3 : 3 ≤ (pyStripStr u).length) (h8 : p.length < 8) :
    create_user (mkReq u p) db salt =
      .ok ⟨⟨400, .obj [("error", .str "Password must be at least 8 characters.")]⟩,
        db, []⟩ := by
  have hne : (pyStripStr u == "") = false := by
    rw [beq_eq_false_iff_ne]
    intro he
    rw [he] at h3
    simp at h3
  have hlen : ¬ (pyStripStr (pyStripStr u)).length < 3 := by
    rw [pyStripStr_idem]
    omega
  simp [create_user, mkReq, jget_username, jget_password, pyStrip,
    validate_username_password, JVal.falsy, JVal.isStr, JVal.asStr, hne, hlen, h8]

/-- Witness for C4: registering alice123 with the 5-character password
"short" returns the password error and leaves the store as is. -/
theorem register_short_password_witness :
    3 ≤ (pyStripStr "alice123").length ∧ ("short" : String).length < 8 ∧
    create_user (mkReq "alice123" "short") exDb 0 =
      .ok ⟨⟨400, .obj [("error", .str "Password must be at least 8 characters.")]⟩,
        exDb, []⟩ :=
  ⟨by decide, by decide,
    register_short_password exDb 0 "alice123" "short" (by decide) (by decide)⟩

/-- C7: login returns the 400 "Missing username or password" response —
with the store untouched and no storage access — exactly when the
trimmed username is empty or the password is empty. The if-and-only-if
shape also records that login enforces presence only: any nonempty
trimmed username (even one shorter than the registration minimum) and
nonempty password get past this check. -/
theorem login_missing_fields_iff (db : DB) (u p : String) :
    login (mkReq u p) db =
      .ok ⟨⟨400, .obj [("error", .str "Missing username or password")]⟩, db, []⟩ ↔
    (pyStripStr u = "" ∨ p = "") := by
  constructor
  · intro h
    by_contra hc
    push_neg at hc
    obtain ⟨hu, hp⟩ := hc
    simp only [login, mkReq, jget_username, jget_password, pyStrip, JVal.falsy,
      beq_eq_false_iff_ne.mpr hu, beq_eq_false_iff_ne.mpr hp, Bool.or_self,
      Bool.not_true, Bool.false_or, if_false, ite_false] at h
    cases hfind : db.findByUsername (pyStripStr u) with
    | none =>
      rw [hfind] at h
      simp at h
    | some row =>
      rw [hfind] at h
      simp only [pyEncode] at h
      by_cases hck : checkpw p row.password = true
      · rw [if_pos hck] at h
        simp at h
      · rw [if_neg hck] at h
        simp at h
  · intro h
    rcases h with h | h
    · simp [login, mkReq, jget_username, jget_password, pyStrip, JVal.falsy, h]
    · simp [login, mkReq, jget_username, jget_password, pyStrip, JVal.falsy, h]

/-- C2 counterexample: with alice123 registered, login for the
never-registered username "bob" and the empty password returns 400
"Missing username or password", not the claimed 401 "Invalid
credentials": the claim fails as stated for the empty password. -/
theorem login_unknown_user_empty_password_400 :
    exDb.findByUsername (pyStripStr "bob") = none ∧
    login (mkReq "bob" "") exDb =
      .ok ⟨⟨400, .obj [("error", .str "Missing username or password")]⟩, exDb, []⟩ ∧
    login (mkReq "bob" "") exDb ≠
      .ok ⟨⟨401, .obj [("message", .str "Invalid credentials")]⟩, exDb,
        [.openConn, .txEnd]⟩ := by
  refine ⟨rfl, rfl, fun h => ?_⟩
  exact absurd (congrArg (fun x : Except PyExn HResult =>
      match x with | .ok r => r.resp.status | .error _ => 0) h)
    (by decide)

/-- C2 amended: provided both runs pass the presence check (nonempty
trimmed username, nonempty password), login for a never-registered
username and login for a registered username with a non-matching
password return the identical 401 "Invalid credentials" outcome — same
status, same body, same state, same connection events. -/
theorem login_failures_indistinguishable (db : DB) (u1 p1 u2 p2 : String)
    (hu1 : pyStripStr u1 ≠ "") (hp1 : p1 ≠ "")
    (hfind1 : db.findByUsername (pyStripStr u1) = none)
    (hu2 : pyStripStr u2 ≠ "") (hp2 : p2 ≠ "")
    (row : UserRow) (hfind2 : db.findByUsername (pyStripStr u2) = some row)
    (hmiss : checkpw p2 row.password = false) :
    login (mkReq u1 p1) db =
      .ok ⟨⟨401, .obj [("message", .str "Invalid credentials")]⟩, db,
        [.openConn, .txEnd]⟩ ∧
    login (mkReq u2 p2) db = login (mkReq u1 p1) db := by
  have e1 : login (mkReq u1 p1) db =
      .ok ⟨⟨401, .obj [("message", .str "Invalid credentials")]⟩, db,
        [.openConn, .txEnd]⟩ := by
    simp [login, mkReq, jget_username, jget_password, pyStrip, JVal.falsy,
      beq_eq_false_iff_ne.mpr hu1, beq_eq_false_iff_ne.mpr hp1, hfind1]
  have e2 : login (mkReq u2 p2) db =
      .ok ⟨⟨401, .obj [("message", .str "Invalid credentials")]⟩, db,
        [.openConn, .txEnd]⟩ := by
    simp [login, mkReq, jget_username, jget_password, pyStrip, JVal.falsy,
      beq_eq_false_iff_ne.mpr hu2, beq_eq_false_iff_ne.mpr hp2, hfind2,
      pyEncode, hmiss]
  exact ⟨e1, e2.trans e1.symm⟩

/-- Witness for the amended C2: "bob" is unregistered in the example
store, "wrongpass1" does not match the stored hash for alice123, and the
two failing logins are wire-identical 401 responses. -/
theorem login_failures_indistinguishable_witness :
    pyStripStr "bob" ≠ "" ∧ ("whatever1" : String) ≠ "" ∧
    exDb.findByUsername (pyStripStr "bob") = none ∧
    pyStripStr "alice123" ≠ "" ∧ ("wrongpass1" : String) ≠ "" ∧
    exDb.findByUsername (pyStripStr "alice123") =
      some ⟨1, "alice123", ⟨0, "password123"⟩⟩ ∧
    checkpw "wrongpass1" (⟨0, "password123"⟩ : BcryptHash) = false ∧
    (login (mkReq "bob" "whatever1") exDb =
      .ok ⟨⟨401, .obj [("message", .str "Invalid credentials")]⟩, exDb,
        [.openConn, .txEnd]⟩ ∧
     login (mkReq "alice123" "wrongpass1") exDb = login (mkReq "bob" "whatever1") exDb) :=
  ⟨by decide, by decide, rfl, by decide, by decide, rfl, rfl,
    login_failures_indistinguishable exDb "bob" "whatever1" "alice123" "wrongpass1"
      (by decide) (by decide) rfl (by decide) (by decide)
      ⟨1, "alice123", ⟨0, "password123"⟩⟩ rfl rfl⟩

/-- C6: every record in the GET /users response object carries exactly
the keys id and username — in that order, straight from the SELECT — and
in particular no record ever contains a password field. -/
theorem list_never_returns_password (db : DB) (records : List (List (String × JVal)))
    (rec : List (String × JVal))
    (hb : (get_users db).1.body = JBody.usersObj records) (hm : rec ∈ records) :
    rec.map Prod.fst = ["id", "username"] ∧
    rec.find? (fun kv => kv.1 == "password") = none := by
  have hb2 : JBody.usersObj (db.rows.map
      (fun r => [("id", JVal.num r.id), ("username", JVal.str r.username)])) =
      JBody.usersObj records := hb
  injection hb2 with hrec
  subst hrec
  rw [List.mem_map] at hm
  obtain ⟨r, hr, hrec⟩ := hm
  subst hrec
  exact ⟨rfl, rfl⟩

/-- Witness for C6: the single record for alice123 in the example store
has exactly the keys id and username and no password key. -/
theorem list_never_returns_password_witness :
    ((get_users exDb).1.body =
      JBody.usersObj [[("id", JVal.num 1), ("username", JVal.str "alice123")]]) ∧
    ([("id", JVal.num 1), ("username", JVal.str "alice123")] ∈
      [[("id", JVal.num 1), ("username", JVal.str "alice123")]]) ∧
    ([("id", JVal.num 1), ("username", JVal.str "alice123")].map Prod.fst =
      ["id", "username"] ∧
     [("id", JVal.num 1), ("username", JVal.str "alice123")].find?
      (fun kv => kv.1 == "password") = none) :=
  ⟨rfl, by decide,
    list_never_returns_password exDb
      [[("id", JVal.num 1), ("username", JVal.str "alice123")]]
      [("id", JVal.num 1), ("username", JVal.str "alice123")] rfl (by decide)⟩

/-- C5: registering a fresh, valid username succeeds with 201 and grows
the table by exactly one row; repeating the same registration is refused
by the uniqueness constraint inside the INSERT — there is no pre-check —
with 409 "Username already exists" and the table unchanged, so the net
growth across the two calls is one row. -/
theorem register_duplicate_conflict (db : DB) (s1 s2 : Nat) (u p : String)
    (hval : validate_username_password (.str (pyStripStr u)) (.str p) = none)
    (hfresh : db.rows.any (fun r => r.username == pyStripStr u) = false) :
    ∃ db2 : DB,
      create_user (mkReq u p) db s1 =
        .ok ⟨⟨201, .obj [("message", .str "User created"),
          ("username", .str (pyStripStr u))]⟩, db2, [.openConn, .txEnd]⟩ ∧
      db2.rows.length = db.rows.length + 1 ∧
      create_user (mkReq u p) db2 s2 =
        .ok ⟨⟨409, .obj [("error", .str "Username already exists")]⟩, db2,
          [.openConn, .txEnd]⟩ := by
  refine ⟨⟨db.rows ++ [⟨db.nextId, pyStripStr u, hashpw p s1⟩], db.nextId + 1⟩, ?_, ?_, ?_⟩
  · simp [create_user, mkReq, jget_username, jget_password, pyStrip, hval,
      DB.insert, hfresh, JVal.asStr, hashpw]
  · simp
  · have hdup : ((db.rows ++ [⟨db.nextId, pyStripStr u, hashpw p s1⟩]) :
        List UserRow).any (fun r => r.username == pyStripStr u) = true := by
      simp [List.any_append]
    simp [create_user, mkReq, jget_username, jget_password, pyStrip, hval,
      DB.insert, hdup]

/-- Witness for C5: registering alice123 twice on the empty store gives
201 then 409 and one stored row. -/
theorem register_duplicate_conflict_witness :
    validate_username_password (.str (pyStripStr "alice123")) (.str "password123") = none ∧
    (([] : List UserRow).any (fun r => r.username == pyStripStr "alice123") = false) ∧
    ∃ db2 : DB,
      create_user (mkReq "alice123" "password123") ⟨[], 1⟩ 0 =
        .ok ⟨⟨201, .obj [("message", .str "User created"),
          ("username", .str (pyStripStr "alice123"))]⟩, db2, [.openConn, .txEnd]⟩ ∧
      db2.rows.length = ([] : List UserRow).length + 1 ∧
      create_user (mkReq "alice123" "password123") db2 0 =
        .ok ⟨⟨409, .obj [("error", .str "Username already exists")]⟩, db2,
          [.openConn, .txEnd]⟩ :=
  ⟨rfl, rfl, register_duplicate_conflict ⟨[], 1⟩ 0 0 "alice123" "password123" rfl rfl⟩

/-- C8 counterexample: a successful registration on the empty store
opens one connection and ends its transaction, but its event trace holds
no close event, so "releases (closes) that connection on every exit
path" fails already on this ordinary success path. -/
theorem create_user_opens_without_close :
    create_user (mkReq "alice123" "password123") ⟨[], 1⟩ 0 =
      .ok ⟨⟨201, .obj [("message", .str "User created"), ("username", .str "alice123")]⟩,
        exDb, [.openConn, .txEnd]⟩ ∧
    [ConnEvent.openConn, ConnEvent.txEnd].count ConnEvent.openConn = 1 ∧
    [ConnEvent.openConn, ConnEvent.txEnd].count ConnEvent.closeConn = 0 :=
  ⟨rfl, rfl, rfl⟩

/-- C8 amended: every exit path of the storage-touching handlers opens exactly
one connection (none at all when validation fails first) and ends its
transaction, but no path ever emits a close event: the sqlite3
connection context manager used in the source ends the transaction
without closing the connection, and nothing else closes it. -/
theorem connection_events_no_close (req : Request) (db : DB) (salt : Nat)
    (r1 r2 : HResult)
    (h1 : create_user req db salt = .ok r1)
    (h2 : login req db = .ok r2) :
    (r1.events = [] ∨ r1.events = [.openConn, .txEnd]) ∧
    (r2.events = [] ∨ r2.events = [.openConn, .txEnd]) ∧
    r1.events.count .closeConn = 0 ∧
    r2.events.count .closeConn = 0 ∧
    (get_users db).2 = [.openConn, .txEnd] ∧
    (get_users db).2.count .closeConn = 0 := by
  have c1 : r1.events = [] ∨ r1.events = [.openConn, .txEnd] := by
    unfold create_user at h1
    repeat' split at h1
    all_goals first
      | exact (Except.noConfusion h1)
      | (injection h1 with h; subst h; simp)
  have c2 : r2.events = [] ∨ r2.events = [.openConn, .txEnd] := by
    unfold login at h2
    repeat' split at h2
    all_goals first
      | exact (Except.noConfusion h2)
      | (injection h2 with h; subst h; simp)
  refine ⟨c1, c2, ?_, ?_, rfl, rfl⟩
  · rcases c1 with h | h <;> rw [h] <;> decide
  · rcases c2 with h | h <;> rw [h] <;> decide

/-- Witness for C8: on the example store, a duplicate registration and a
successful login each produce exactly one open and one transaction end,
and zero close events; same for a users listing. -/
theorem connection_events_no_close_witness :
    create_user (mkReq "alice123" "password123") exDb 0 =
      .ok ⟨⟨409, .obj [("error", .str "Username already exists")]⟩, exDb,
        [.openConn, .txEnd]⟩ ∧
    login (mkReq "alice123" "password123") exDb =
      .ok ⟨⟨200, .obj [("message", .str "Login successful"), ("user_id", .num 1)]⟩,
        exDb, [.openConn, .txEnd]⟩ ∧
    (([ConnEvent.openConn, ConnEvent.txEnd] = ([] : List ConnEvent) ∨
      [ConnEvent.openConn, ConnEvent.txEnd] = [ConnEvent.openConn, ConnEvent.txEnd]) ∧
     ([ConnEvent.openConn, ConnEvent.txEnd] = ([] : List ConnEvent) ∨
      [ConnEvent.openConn, ConnEvent.txEnd] = [ConnEvent.openConn, ConnEvent.txEnd]) ∧
     [ConnEvent.openConn, ConnEvent.txEnd].count ConnEvent.closeConn = 0 ∧
     [ConnEvent.openConn, ConnEvent.txEnd].count ConnEvent.closeConn = 0 ∧
     (get_users exDb).2 = [.openConn, .txEnd] ∧
     (get_users exDb).2.count .closeConn = 0) :=
  ⟨rfl, rfl,
    connection_events_no_close (mkReq "alice123" "password123") exDb 0
      ⟨⟨409, .obj [("error", .str "Username already exists")]⟩, exDb,
        [.openConn, .txEnd]⟩
      ⟨⟨200, .obj [("message", .str "Login successful"), ("user_id", .num 1)]⟩,
        exDb, [.openConn, .txEnd]⟩ rfl rfl⟩

/-! ### Helper lemmas for the registration/login round trip -/

theorem validate_none_facts (a b : String)
    (h : validate_username_password (.str a) (.str b) = none) :
    (a == "") = false ∧ (b == "") = false := by
  unfold validate_username_password at h
  split at h
  · exact absurd h (by simp)
  · split at h
    · exact absurd h (by simp)
    · rename_i hc1 hc2
      constructor
      · cases hx : (a == "") with
        | false => rfl
        | true => exact absurd (by simp [JVal.falsy, hx]) hc1
      · cases hx : (b == "") with
        | false => rfl
        | true => exact absurd (by simp [JVal.falsy, hx]) hc2

theorem insert_some_facts (db : DB) (uname : String) (h : BcryptHash) (db2 : DB)
    (hins : db.insert uname h = some db2) :
    db.rows.any (fun r => r.username == uname) = false ∧
    db2 = ⟨db.rows ++ [⟨db.nextId, uname, h⟩], db.nextId + 1⟩ := by
  unfold DB.insert at hins
  split at hins
  · exact absurd hins (by simp)
  · rename_i hc
    injection hins with hh
    exact ⟨by simpa using hc, hh.symm⟩

theorem find_append_fresh (rows : List UserRow) (uname : String) (i : Nat)
    (hp : BcryptHash)
    (hfresh : rows.any (fun r => r.username == uname) = false) :
    (rows ++ [UserRow.mk i uname hp]).find? (fun r => r.username == uname) =
      some (UserRow.mk i uname hp) := by
  rw [List.find?_append]
  have h0 : rows.find? (fun r => r.username == uname) = none :=
    List.find?_eq_none.mpr (fun x hx => by
      have := List.any_eq_false.mp hfresh x hx
      simpa using this)
  rw [h0]
  simp [List.find?]

theorem jval_str_beq (a b : String) : (JVal.str a == JVal.str b) = (a == b) := by
  by_cases h : a = b
  · subst h
    simp
  · rw [beq_eq_false_iff_ne.mpr h,
      beq_eq_false_iff_ne.mpr (fun hc => h (JVal.str.inj hc))]

theorem jget_rec_username (i : Int) (un : String) :
    jget [("id", JVal.num i), ("username", JVal.str un)] "username" (.str "") =
      .str un := rfl

theorem jget_rec_id (i : Int) (un : String) :
    jget [("id", JVal.num i), ("username", JVal.str un)] "id" (.str "") =
      .num i := rfl

theorem login_success (db : DB) (u p : String) (row : UserRow)
    (hu : (pyStripStr u == "") = false) (hp : (p == "") = false)
    (hfind : db.findByUsername (pyStripStr u) = some row)
    (hck : checkpw p row.password = true) :
    login (mkReq u p) db =
      .ok ⟨⟨200, .obj [("message", .str "Login successful"), ("user_id", .num row.id)]⟩,
        db, [.openConn, .txEnd]⟩ := by
  simp [login, mkReq, jget_username, jget_password, pyStrip, JVal.falsy, hu, hp,
    hfind, pyEncode, hck]

/-- C1: whenever registration of (u, p) succeeds with 201, a subsequent
login with the same credentials succeeds with 200, and the user_id it
returns equals the id carried by the record for the trimmed username in
a subsequent GET /users listing. -/
theorem register_login_roundtrip (db : DB) (salt : Nat) (u p : String) (r : HResult)
    (hreg : create_user (mkReq u p) db salt = .ok r)
    (h201 : r.resp.status = 201) :
    ∃ uid : Nat,
      login (mkReq u p) r.db =
        .ok ⟨⟨200, .obj [("message", .str "Login successful"),
          ("user_id", .num (uid : Int))]⟩, r.db, [.openConn, .txEnd]⟩ ∧
      usersLookupId (get_users r.db).1 (pyStripStr u) = some (uid : Int) := by
  have hreg2 :
      (match validate_username_password (.str (pyStripStr u)) (.str p) with
       | some err =>
         Except.ok (⟨⟨400, .obj [("error", .str err)]⟩, db, []⟩ : HResult)
       | none =>
         match db.insert (pyStripStr u) (hashpw p salt) with
         | none =>
           Except.ok (⟨⟨409, .obj [("error", .str "Username already exists")]⟩, db,
             [.openConn, .txEnd]⟩ : HResult)
         | some db2 =>
           Except.ok (⟨⟨201, .obj [("message", .str "User created"),
             ("username", .str (pyStripStr u))]⟩, db2,
             [.openConn, .txEnd]⟩ : HResult)) = .ok r := hreg
  cases hval : validate_username_password (.str (pyStripStr u)) (.str p) with
  | some err =>
    rw [hval] at hreg2
    injection hreg2 with hh
    subst hh
    simp at h201
  | none =>
    rw [hval] at hreg2
    obtain ⟨hune, hpne⟩ := validate_none_facts _ _ hval
    cases hins : db.insert (pyStripStr u) (hashpw p salt) with
    | none =>
      rw [hins] at hreg2
      injection hreg2 with hh
      subst hh
      simp at h201
    | some db2 =>
      rw [hins] at hreg2
      injection hreg2 with hh
      subst hh
      obtain ⟨hfresh, hdb2⟩ := insert_some_facts db (pyStripStr u) (hashpw p salt) db2 hins
      subst hdb2
      refine ⟨db.nextId, ?_, ?_⟩
      · exact login_success
          (DB.mk (db.rows ++ [UserRow.mk db.nextId (pyStripStr u) (hashpw p salt)])
            (db.nextId + 1)) u p
          (UserRow.mk db.nextId (pyStripStr u) (hashpw p salt)) hune hpne
          (find_append_fresh db.rows (pyStripStr u) db.nextId (hashpw p salt) hfresh)
          (by simp [checkpw, hashpw])
      · have hpred : ((fun rec => jget rec "username" (.str "") == .str (pyStripStr u)) ∘
            (fun r : UserRow =>
              [("id", JVal.num r.id), ("username", JVal.str r.username)])) =
            (fun r : UserRow => r.username == pyStripStr u) := by
          funext rr
          show (jget [("id", JVal.num rr.id), ("username", JVal.str rr.username)]
            "username" (.str "") == .str (pyStripStr u)) = (rr.username == pyStripStr u)
          rw [jget_rec_username, jval_str_beq]
        have hfind2 :
            (((db.rows ++ [UserRow.mk db.nextId (pyStripStr u) (hashpw p salt)]).map
              (fun r : UserRow =>
                [("id", JVal.num r.id), ("username", JVal.str r.username)])).find?
                (fun rec => jget rec "username" (.str "") == .str (pyStripStr u))) =
            some [("id", JVal.num db.nextId), ("username", JVal.str (pyStripStr u))] := by
          rw [List.find?_map, hpred,
            find_append_fresh db.rows (pyStripStr u) db.nextId (hashpw p salt) hfresh]
          rfl
        show usersLookupId
          (Response.mk 200 (.usersObj
            ((db.rows ++ [UserRow.mk db.nextId (pyStripStr u) (hashpw p salt)]).map
              (fun r : UserRow =>
                [("id", JVal.num r.id), ("username", JVal.str r.username)]))))
          (pyStripStr u) = some (db.nextId : Int)
        simp only [usersLookupId]
        rw [hfind2]
        rfl

/-- Witness for C1: registering alice123 on the empty store succeeds with
201, and the subsequent login and listing agree on user id 1. -/
theorem register_login_roundtrip_witness :
    create_user (mkReq "alice123" "password123") ⟨[], 1⟩ 0 =
      .ok ⟨⟨201, .obj [("message", .str "User created"), ("username", .str "alice123")]⟩,
        exDb, [.openConn, .txEnd]⟩ ∧
    ∃ uid : Nat,
      login (mkReq "alice123" "password123") exDb =
        .ok ⟨⟨200, .obj [("message", .str "Login successful"),
          ("user_id", .num (uid : Int))]⟩, exDb, [.openConn, .txEnd]⟩ ∧
      usersLookupId (get_users exDb).1 (pyStripStr "alice123") = some (uid : Int) :=
  ⟨rfl, register_login_roundtrip ⟨[], 1⟩ 0 "alice123" "password123"
    ⟨⟨201, .obj [("message", .str "User created"), ("username", .str "alice123")]⟩,
      exDb, [.openConn, .txEnd]⟩ rfl rfl⟩

end App
